import Mathlib

/-!
Verification of the behavioral risk-analytics engine of ThreatWatch
(`backend/app/test.py`).  The Python classes `PersonTracker`,
`RiskScoreCalculator`, `SecurityZone` and `SecurityMonitoringSystem` are
shallowly embedded below: float values become real numbers, pixel
coordinates become integers, Python lists/deques become Lean lists, and the
`cv2.pointPolygonTest` primitive (an external OpenCV call, `measureDist =
False`, integer branch) is embedded as the integer crossing-number
algorithm it implements.  Free-text `description` strings, which no claim
depends on, are embedded as `""`.
-/

namespace ThreatWatch

/-- `RiskEvent` dataclass of `test.py`: one timestamped risk occurrence. -/
structure RiskEvent where
  event_type : String
  risk_score : ℝ
  confidence : ℝ
  timestamp : ℝ
  duration : ℝ := 0
  location : ℤ × ℤ := (0, 0)
  description : String := ""

/-- One carried-object sighting appended by `detect_carried_objects`. -/
structure DetectedObject where
  object : String
  confidence : ℝ
  timestamp : ℝ

/-- `PersonTracker` dataclass of `test.py`.  `positions` and `timestamps`
are `deque(maxlen=30)`, `detected_objects` is `deque(maxlen=10)`;
bounded appends are modelled by `dequeAppend`. -/
structure PersonTracker where
  track_id : ℤ
  positions : List (ℤ × ℤ) := []
  timestamps : List ℝ := []
  detected_objects : List DetectedObject := []
  risk_events : List RiskEvent := []
  total_risk_score : ℝ := 0
  max_risk_score : ℝ := 0
  status : String := "normal"
  last_seen : ℝ := 0
  zone_entry_time : Option ℝ := none
  stationary_start : Option ℝ := none
  last_bbox : List ℤ := []
  last_notified_threat : String := "normal"

/-- A fresh `PersonTracker(track_id=id)` with the dataclass defaults. -/
def mkTracker (id : ℤ) : PersonTracker := { track_id := id }

/-- `deque(maxlen=cap).append`: append on the right, evicting from the left
whenever the capacity is exceeded. -/
def dequeAppend (cap : ℕ) (l : List α) (x : α) : List α :=
  let l' := l ++ [x]
  if cap < l'.length then l'.drop (l'.length - cap) else l'

/-- `PersonTracker.add_position`: push `(pos, ts)` into the two bounded
buffers and refresh `last_seen` / `last_bbox`. -/
def PersonTracker.add_position (p : PersonTracker) (pos : ℤ × ℤ) (ts : ℝ)
    (bbox : List ℤ) : PersonTracker :=
  { p with
    positions := dequeAppend 30 p.positions pos
    timestamps := dequeAppend 30 p.timestamps ts
    last_seen := ts
    last_bbox := bbox }

/-- Fold a whole sequence of `add_position` calls over a tracker. -/
def runAddPositions (p : PersonTracker) (calls : List ((ℤ × ℤ) × ℝ × List ℤ)) :
    PersonTracker :=
  calls.foldl (fun q c => q.add_position c.1 c.2.1 c.2.2) p

/-- `SecurityZone` of `test.py`: name, access level and the polygon the
`points` dictionaries parse to (`np.int32` pixel vertices). -/
structure SecurityZone where
  name : String
  access_level : String
  points : List (ℤ × ℤ)

/-- One iteration step of OpenCV's `pointPolygonTest` (integer contour,
`measureDist = False`): `vPrev` is the previous vertex, the list holds the
remaining vertices, `counter` counts upward edge crossings.  `none` means
the early `return 0` (point on the contour) was taken. -/
def ppLoop (ip : ℤ × ℤ) : (ℤ × ℤ) → List (ℤ × ℤ) → ℕ → Option ℕ
  | _, [], counter => some counter
  | vPrev, vi :: rest, counter =>
    let v0 := vPrev
    let v := vi
    if (v0.2 ≤ ip.2 ∧ v.2 ≤ ip.2) ∨ (ip.2 < v0.2 ∧ ip.2 < v.2) ∨
        (v0.1 < ip.1 ∧ v.1 < ip.1) then
      if ip.2 = v.2 ∧ (ip.1 = v.1 ∨ (ip.2 = v0.2 ∧
          ((v0.1 ≤ ip.1 ∧ ip.1 ≤ v.1) ∨ (v.1 ≤ ip.1 ∧ ip.1 ≤ v0.1)))) then
        none
      else ppLoop ip v rest counter
    else
      let dist := (ip.2 - v0.2) * (v.1 - v0.1) - (ip.1 - v0.1) * (v.2 - v0.2)
      if dist = 0 then none
      else
        let dist' := if v.2 < v0.2 then -dist else dist
        ppLoop ip v rest (counter + if 0 < dist' then 1 else 0)

/-- `cv2.pointPolygonTest(contour, pt, False)` on an `np.int32` contour:
`0` when the point lies on the contour, otherwise `+1`/`-1` by parity of
the crossing counter.  The previous vertex starts at `contour[total-1]`. -/
def pointPolygonTest (pts : List (ℤ × ℤ)) (ip : ℤ × ℤ) : ℤ :=
  match pts.getLast? with
  | none => -1
  | some vlast =>
    match ppLoop ip vlast pts 0 with
    | none => 0
    | some counter => if counter % 2 = 0 then -1 else 1

/-- `SecurityZone.contains_point`: `False` on an empty vertex array, else
`cv2.pointPolygonTest(...) >= 0`. -/
def SecurityZone.contains_point (z : SecurityZone) (pt : ℤ × ℤ) : Bool :=
  if z.points.isEmpty then false else decide (0 ≤ pointPolygonTest z.points pt)

/-- The square test zone of the spec's zone-containment property. -/
def squareZone : SecurityZone :=
  ⟨("square"), ("monitored"), [(0, 0), (10, 0), (10, 10), (0, 10)]⟩

/-- A degenerate two-vertex zone used to refute the claim that zones with
2 or fewer vertices contain no point at all. -/
def twoPointZone : SecurityZone :=
  ⟨("segment"), ("restricted"), [(0, 0), (10, 0)]⟩

/-- `math.atan2 y x` for real arguments. -/
noncomputable def atan2 (y x : ℝ) : ℝ :=
  if 0 < x then Real.arctan (y / x)
  else if x < 0 then
    (if 0 ≤ y then Real.arctan (y / x) + Real.pi
     else Real.arctan (y / x) - Real.pi)
  else if 0 < y then Real.pi / 2
  else if y < 0 then -(Real.pi / 2)
  else 0

/-- `PersonTracker.get_speed`: total path length over total elapsed time,
pairing `positions[i]` with `timestamps[i]`; segments with nonpositive
time difference contribute neither distance nor time. -/
noncomputable def PersonTracker.get_speed (p : PersonTracker) : ℝ :=
  if p.positions.length < 2 then 0
  else
    let samples := p.positions.zip p.timestamps
    let segs := samples.zip samples.tail
    let acc := segs.foldl
      (fun (acc : ℝ × ℝ) s =>
        let dx : ℤ := s.2.1.1 - s.1.1.1
        let dy : ℤ := s.2.1.2 - s.1.1.2
        let dist := Real.sqrt ((dx : ℝ) ^ 2 + (dy : ℝ) ^ 2)
        let dt := s.2.2 - s.1.2
        if 0 < dt then (acc.1 + dist, acc.2 + dt) else acc)
      (0, 0)
    if 0 < acc.2 then acc.1 / acc.2 else 0

/-- Angle of the segment from `a` to `b`: `math.atan2(dy, dx)`. -/
noncomputable def segAngle (a b : ℤ × ℤ) : ℝ :=
  atan2 ((b.2 - a.2 : ℤ) : ℝ) ((b.1 - a.1 : ℤ) : ℝ)

/-- Absolute consecutive angle difference at `b`, wrapped into `[0, π]`
exactly as the loop body of `get_movement_pattern` does. -/
noncomputable def angleDelta (a b c : ℤ × ℤ) : ℝ :=
  let d := |segAngle b c - segAngle a b|
  if Real.pi < d then 2 * Real.pi - d else d

/-- The `direction_changes` counter of `get_movement_pattern`: the number
of consecutive angle deltas exceeding `π/4`. -/
noncomputable def directionChanges (ps : List (ℤ × ℤ)) : ℕ :=
  (ps.zip (ps.tail.zip ps.tail.tail)).countP
    (fun t => decide (Real.pi / 4 < angleDelta t.1 t.2.1 t.2.2))

/-- `PersonTracker.get_movement_pattern`.  Note the change rate divides
the counter by `len(positions)`, not by the number of angle deltas. -/
noncomputable def PersonTracker.get_movement_pattern (p : PersonTracker) : String :=
  if p.positions.length < 5 then "insufficient_data"
  else
    let speed := p.get_speed
    let change_rate : ℝ := (directionChanges p.positions : ℝ) / (p.positions.length : ℝ)
    if speed < 5 then "stationary"
    else if 50 < speed then "running"
    else if (0.3 : ℝ) < change_rate then "erratic"
    else if change_rate < (0.1 : ℝ) then "linear"
    else "normal"

/-- Ten axis-aligned position samples, one per second, with steps of 10 px
and exactly 3 right-angle turns among the 8 consecutive angle deltas. -/
noncomputable def exC2 : PersonTracker :=
  { track_id := 2
    positions := [(0, 0), (10, 0), (20, 0), (20, 10), (20, 20), (30, 20),
      (40, 20), (40, 30), (40, 40), (40, 50)]
    timestamps := [0, 1, 2, 3, 4, 5, 6, 7, 8, 9]
    last_seen := 9 }


noncomputable def base_risk_scores : String → ℝ
  | "intrusion" => 15
  | "armed_person" => 20
  | "suspicious_loitering" => 8
  | "erratic_movement" => 6
  | "running" => 5
  | "group_formation" => 7
  | _ => 0

noncomputable def confidence_weights : String → ℝ
  | "high" => 1
  | "medium" => (0.8 : ℝ)
  | "low" => (0.5 : ℝ)
  | _ => 1

noncomputable def get_confidence_level (c : ℝ) : String :=
  if (0.8 : ℝ) ≤ c then "high" else if (0.6 : ℝ) ≤ c then "medium" else "low"

noncomputable def calculate_time_factor (event_time current_time : ℝ) : ℝ :=
  let d := current_time - event_time
  if d < 10 then (1.5 : ℝ)
  else if d < 30 then (1.2 : ℝ)
  else if d < 120 then 1
  else max (0.3 : ℝ) (Real.exp (-d / 300))

noncomputable def eventScore (e : RiskEvent) (ct : ℝ) : ℝ :=
  let base := base_risk_scores e.event_type
  let cf := confidence_weights (get_confidence_level e.confidence)
  let tf := calculate_time_factor e.timestamp ct
  let s := base * cf * tf * 1
  if 30 < e.duration then s * (1 + min (e.duration / 60) 2 * (0.3 : ℝ)) else s

noncomputable def riskFold (ct : ℝ) (acc : ℝ × ℝ × String) (e : RiskEvent) :
    ℝ × ℝ × String :=
  let s := eventScore e ct
  (acc.1 + s, if acc.2.1 < s then (s, e.event_type) else acc.2)

noncomputable def calculate_risk_score (p : PersonTracker) (ct : ℝ) : ℝ × String :=
  let r := p.risk_events.foldl (riskFold ct) (0, 0, "normal")
  let mp := p.get_movement_pattern
  let t1 :=
    if mp = "erratic" then r.1 * (1.3 : ℝ)
    else if mp = "running" then r.1 * (1.2 : ℝ)
    else if mp = "stationary" ∧ 0 < p.risk_events.length then r.1 * (1.1 : ℝ)
    else r.1
  let t2 :=
    if 2 < (p.risk_events.filter (fun e => decide (ct - e.timestamp < 60))).length
    then t1 * (1.4 : ℝ) else t1
  (min t2 100, r.2.2)

noncomputable def eraseRiskScore (e : RiskEvent) : RiskEvent :=
  { e with risk_score := 0 }

noncomputable def exC8e : RiskEvent :=
  { event_type := "intrusion", risk_score := 15, confidence := (0.5 : ℝ),
    timestamp := 0 }

noncomputable def exC8 : PersonTracker :=
  { track_id := 8, positions := [(5, 5)], timestamps := [0],
    risk_events := [exC8e], last_seen := 0 }

noncomputable def exC9eRestricted : RiskEvent :=
  { event_type := "intrusion", risk_score := 12, confidence := (0.9 : ℝ),
    timestamp := 0 }

noncomputable def exC9eCritical : RiskEvent :=
  { event_type := "intrusion", risk_score := 15, confidence := (0.9 : ℝ),
    timestamp := 0 }

noncomputable def exC9p : PersonTracker :=
  { track_id := 9, positions := [(5, 5)], timestamps := [0],
    risk_events := [exC9eRestricted], last_seen := 0 }

noncomputable def exC9q : PersonTracker :=
  { track_id := 9, positions := [(5, 5)], timestamps := [0],
    risk_events := [exC9eCritical], last_seen := 0 }

noncomputable def exStationary : PersonTracker :=
  { track_id := 3, positions := [(5, 5), (5, 5), (5, 5), (5, 5), (5, 5)],
    timestamps := [0, 1, 2, 3, 4], last_seen := 4 }

structure AlertConfig where
  loitering_threshold : ℝ := 10
  risk_alert_threshold : ℝ := 20
  critical_alert_threshold : ℝ := 40

def defaultConfig : AlertConfig := {}

noncomputable def recentMovementTotal (p : PersonTracker) : ℝ :=
  let recent := p.positions.drop (p.positions.length - 10)
  (recent.zip recent.tail).foldl
    (fun acc s =>
      acc + Real.sqrt (((s.2.1 - s.1.1 : ℤ) : ℝ) ^ 2
        + ((s.2.2 - s.1.2 : ℤ) : ℝ) ^ 2)) 0

noncomputable def recentMovementAvg (p : PersonTracker) : ℝ :=
  recentMovementTotal p
    / ((p.positions.drop (p.positions.length - 10)).length : ℝ)

noncomputable def check_loitering (cfg : AlertConfig) (p : PersonTracker)
    (ct : ℝ) : Option RiskEvent × PersonTracker :=
  if p.positions.length < 10 then (none, p)
  else if recentMovementAvg p < 10 then
    match p.stationary_start with
    | none => (none, { p with stationary_start := some ct })
    | some s =>
      if cfg.loitering_threshold < ct - s then
        if (p.risk_events.filter (fun e =>
            e.event_type == "suspicious_loitering"
              && decide (ct - e.timestamp < 60))).isEmpty then
          (some { event_type := "suspicious_loitering", risk_score := 8,
                  confidence := (0.8 : ℝ), timestamp := ct,
                  duration := ct - s,
                  location := p.positions.getLast?.getD (0, 0) }, p)
        else (none, p)
      else (none, p)
  else (none, { p with stationary_start := none })

noncomputable def exC3 : PersonTracker :=
  { track_id := 4,
    positions := [(50, 50), (50, 50), (50, 50), (50, 50), (50, 50),
      (50, 50), (50, 50), (50, 50), (50, 50), (50, 50)],
    timestamps := [0, 1, 2, 3, 4, 5, 6, 7, 8, 9],
    last_seen := 9,
    stationary_start := some 0 }

noncomputable def exLoiterEv : RiskEvent :=
  { event_type := "suspicious_loitering", risk_score := 8,
    confidence := (0.8 : ℝ), timestamp := 11, duration := (11 : ℝ) - 0,
    location := (50, 50) }

noncomputable def exC3dup : PersonTracker :=
  { exC3 with risk_events := [exLoiterEv] }

structure Incident where
  timestamp : ℝ
  track_id : ℤ
  risk_score : ℝ
  primary_threat : String
  location : Option (ℤ × ℤ)
  details : List String
  path : List (ℤ × ℤ)

structure Alert where
  level : String
  track_id : ℤ
  risk_score : ℝ
  threat_type : String
  location : ℤ × ℤ
  timestamp : ℝ

noncomputable def processPerson (cfg : AlertConfig) (ct : ℝ)
    (p : PersonTracker) : List Incident × List Alert × PersonTracker :=
  if 5 < ct - p.last_seen then ([], [], p)
  else
    let r := calculate_risk_score p ct
    let p1 := { p with status := r.2 }
    if cfg.risk_alert_threshold ≤ r.1 then
      let inc : Incident :=
        { timestamp := ct, track_id := p.track_id, risk_score := r.1,
          primary_threat := r.2, location := p.positions.getLast?,
          details := p.risk_events.map (fun e => e.event_type),
          path := p.positions }
      if r.2 ≠ p.last_notified_threat then
        ([inc],
          [{ level := if cfg.critical_alert_threshold ≤ r.1 then "CRITICAL"
                else "HIGH",
             track_id := p.track_id, risk_score := r.1, threat_type := r.2,
             location := p.positions.getLast?.getD (0, 0), timestamp := ct }],
          { p1 with last_notified_threat := r.2 })
      else ([inc], [], p1)
    else
      if p.last_notified_threat ≠ "normal" then
        ([], [], { p1 with last_notified_threat := "normal" })
      else ([], [], p1)

noncomputable def process_alerts (cfg : AlertConfig) (ct : ℝ)
    (trackers : List PersonTracker) :
    List Incident × List Alert × List PersonTracker :=
  trackers.foldr
    (fun p acc =>
      let r := processPerson cfg ct p
      (r.1 ++ acc.1, r.2.1 ++ acc.2.1, r.2.2 :: acc.2.2))
    ([], [], [])

structure SystemStats where
  active_trackers : ℕ
  total_trackers : ℕ
  dist_low : ℕ
  dist_medium : ℕ
  dist_high : ℕ
  dist_critical : ℕ

noncomputable def get_system_statistics (trackers : List PersonTracker)
    (ct : ℝ) : SystemStats :=
  let active := trackers.filter (fun p => decide (ct - p.last_seen < 5))
  { active_trackers := active.length
    total_trackers := trackers.length
    dist_low := (active.filter
      (fun p => decide ((calculate_risk_score p ct).1 < 10))).length
    dist_medium := (active.filter (fun p =>
      decide (¬ (calculate_risk_score p ct).1 < 10
        ∧ (calculate_risk_score p ct).1 < 25))).length
    dist_high := (active.filter (fun p =>
      decide (¬ (calculate_risk_score p ct).1 < 25
        ∧ (calculate_risk_score p ct).1 < 50))).length
    dist_critical := (active.filter
      (fun p => decide (¬ (calculate_risk_score p ct).1 < 50))).length }

noncomputable def exC5e : RiskEvent :=
  { event_type := "intrusion", risk_score := 12, confidence := (0.9 : ℝ),
    timestamp := 5 }

noncomputable def exC5 : PersonTracker :=
  { track_id := 5, positions := [(5, 5)], timestamps := [0],
    risk_events := [exC5e], last_seen := 0 }

noncomputable def exC1intr (ts : ℝ) : RiskEvent :=
  { event_type := "intrusion", risk_score := 12, confidence := (0.9 : ℝ),
    timestamp := ts }

noncomputable def exC1arm : RiskEvent :=
  { event_type := "armed_person", risk_score := 0, confidence := (0.9 : ℝ),
    timestamp := 6 }

noncomputable def exC1p1 : PersonTracker :=
  { track_id := 7, positions := [(3, 3)], timestamps := [1],
    risk_events := [exC1intr 1], last_seen := 1 }

noncomputable def exC1p2 : PersonTracker :=
  { track_id := 7, positions := [(3, 3)], timestamps := [2],
    risk_events := [exC1intr 2], last_seen := 2,
    last_notified_threat := "intrusion" }

noncomputable def exC1p3 : PersonTracker :=
  { track_id := 7, positions := [(3, 3)], timestamps := [3],
    risk_events := [exC1intr 3], last_seen := 3,
    last_notified_threat := "intrusion" }

noncomputable def exC1p4 : PersonTracker :=
  { track_id := 7, positions := [(3, 3)], timestamps := [4],
    risk_events := [exC1intr 4], last_seen := 4,
    last_notified_threat := "intrusion" }

noncomputable def exC1p5 : PersonTracker :=
  { track_id := 7, positions := [(3, 3)], timestamps := [5],
    risk_events := [exC1intr 5], last_seen := 5,
    last_notified_threat := "intrusion" }

noncomputable def exC1p6 : PersonTracker :=
  { track_id := 7, positions := [(3, 3)], timestamps := [6],
    risk_events := [exC1arm], last_seen := 6,
    last_notified_threat := "intrusion" }

noncomputable def processAlertsWith
    (evalPerson : PersonTracker →
      Except String (List Incident × List Alert × PersonTracker))
    (trackers : List PersonTracker) :
    List Incident × List Alert × List PersonTracker :=
  trackers.foldr
    (fun p acc =>
      match evalPerson p with
      | Except.error _ => (acc.1, acc.2.1, p :: acc.2.2)
      | Except.ok r => (r.1 ++ acc.1, r.2.1 ++ acc.2.1, r.2.2 :: acc.2.2))
    ([], [], [])

noncomputable def analyzeLoopWith
    (analyze : PersonTracker → Except String PersonTracker) (ct : ℝ) :
    List PersonTracker → Except String (List PersonTracker)
  | [] => Except.ok []
  | p :: rest =>
    if ct - p.last_seen < 5 then
      match analyze p with
      | Except.error e => Except.error e
      | Except.ok p' => (analyzeLoopWith analyze ct rest).map (p' :: ·)
    else (analyzeLoopWith analyze ct rest).map (p :: ·)

noncomputable def failOnOne :
    PersonTracker → Except String (List Incident × List Alert × PersonTracker) :=
  fun p => if p.track_id = 1 then Except.error "boom" else Except.ok ([], [], p)

noncomputable def analyzeFailOnOne :
    PersonTracker → Except String PersonTracker :=
  fun p => if p.track_id = 1 then Except.error "boom" else Except.ok p

theorem dequeAppend_length (cap : ℕ) (l : List α) (x : α) :
    (dequeAppend cap l x).length = min (l.length + 1) cap := by
  simp only [dequeAppend]
  split
  · rename_i h
    simp only [List.length_drop, List.length_append, List.length_cons,
      List.length_nil] at *
    omega
  · rename_i h
    simp only [List.length_append, List.length_cons, List.length_nil] at *
    omega

theorem runAddPositions_invariant (q : PersonTracker)
    (calls : List ((ℤ × ℤ) × ℝ × List ℤ))
    (h : q.positions.length = q.timestamps.length ∧ q.positions.length ≤ 30) :
    (runAddPositions q calls).positions.length
        = (runAddPositions q calls).timestamps.length
      ∧ (runAddPositions q calls).positions.length ≤ 30 := by
  induction calls generalizing q with
  | nil => exact h
  | cons c rest ih =>
    apply ih
    simp only [PersonTracker.add_position, dequeAppend_length]
    omega

/-- Claim C10: after any sequence of `add_position` calls on a fresh
tracker, `positions` and `timestamps` have equal lengths and both stay
within the 30-entry capacity, so `get_speed`'s index pairing of
`positions[i]` with `timestamps[i]` is always defined. -/
theorem tracker_buffers_aligned_and_bounded (id : ℤ)
    (calls : List ((ℤ × ℤ) × ℝ × List ℤ)) :
    (runAddPositions (mkTracker id) calls).positions.length
        = (runAddPositions (mkTracker id) calls).timestamps.length
      ∧ (runAddPositions (mkTracker id) calls).positions.length ≤ 30
      ∧ (runAddPositions (mkTracker id) calls).timestamps.length ≤ 30 := by
  have h := runAddPositions_invariant (mkTracker id) calls (by simp [mkTracker])
  exact ⟨h.1, h.2, h.1 ▸ h.2⟩



theorem ppLoop_nil (ip v : ℤ × ℤ) (c : ℕ) : ppLoop ip v [] c = some c := rfl

theorem ppLoop_cons (ip v0 v : ℤ × ℤ) (rest : List (ℤ × ℤ)) (c : ℕ) :
    ppLoop ip v0 (v :: rest) c =
      if (v0.2 ≤ ip.2 ∧ v.2 ≤ ip.2) ∨ (ip.2 < v0.2 ∧ ip.2 < v.2) ∨
          (v0.1 < ip.1 ∧ v.1 < ip.1) then
        if ip.2 = v.2 ∧ (ip.1 = v.1 ∨ (ip.2 = v0.2 ∧
            ((v0.1 ≤ ip.1 ∧ ip.1 ≤ v.1) ∨ (v.1 ≤ ip.1 ∧ ip.1 ≤ v0.1)))) then
          none
        else ppLoop ip v rest c
      else
        if (ip.2 - v0.2) * (v.1 - v0.1) - (ip.1 - v0.1) * (v.2 - v0.2) = 0 then
          none
        else
          ppLoop ip v rest (c + if 0 <
              (if v.2 < v0.2 then
                -((ip.2 - v0.2) * (v.1 - v0.1) - (ip.1 - v0.1) * (v.2 - v0.2))
              else
                (ip.2 - v0.2) * (v.1 - v0.1) - (ip.1 - v0.1) * (v.2 - v0.2))
            then 1 else 0) := rfl

theorem ppLoop_two_key (ip a b : ℤ × ℤ) :
    ppLoop ip b [a, b] 0 = none ∨
      ∃ c, ppLoop ip b [a, b] 0 = some c ∧ c % 2 = 0 := by
  rw [ppLoop_cons]
  by_cases hS : (b.2 ≤ ip.2 ∧ a.2 ≤ ip.2) ∨ (ip.2 < b.2 ∧ ip.2 < a.2) ∨
      (b.1 < ip.1 ∧ a.1 < ip.1)
  · rw [if_pos hS]
    by_cases hE1 : ip.2 = a.2 ∧ (ip.1 = a.1 ∨ (ip.2 = b.2 ∧
        ((b.1 ≤ ip.1 ∧ ip.1 ≤ a.1) ∨ (a.1 ≤ ip.1 ∧ ip.1 ≤ b.1))))
    · rw [if_pos hE1]; exact Or.inl rfl
    · rw [if_neg hE1, ppLoop_cons]
      have hS' : (a.2 ≤ ip.2 ∧ b.2 ≤ ip.2) ∨ (ip.2 < a.2 ∧ ip.2 < b.2) ∨
          (a.1 < ip.1 ∧ b.1 < ip.1) := by tauto
      rw [if_pos hS']
      by_cases hE2 : ip.2 = b.2 ∧ (ip.1 = b.1 ∨ (ip.2 = a.2 ∧
          ((a.1 ≤ ip.1 ∧ ip.1 ≤ b.1) ∨ (b.1 ≤ ip.1 ∧ ip.1 ≤ a.1))))
      · rw [if_pos hE2]; exact Or.inl rfl
      · rw [if_neg hE2, ppLoop_nil]
        exact Or.inr ⟨0, rfl, by norm_num⟩
  · rw [if_neg hS]
    by_cases hD0 : (ip.2 - b.2) * (a.1 - b.1) - (ip.1 - b.1) * (a.2 - b.2) = 0
    · rw [if_pos hD0]; exact Or.inl rfl
    · rw [if_neg hD0, ppLoop_cons]
      have hS' : ¬ ((a.2 ≤ ip.2 ∧ b.2 ≤ ip.2) ∨ (ip.2 < a.2 ∧ ip.2 < b.2) ∨
          (a.1 < ip.1 ∧ b.1 < ip.1)) := by tauto
      rw [if_neg hS']
      have hneg : (ip.2 - a.2) * (b.1 - a.1) - (ip.1 - a.1) * (b.2 - a.2) =
          -((ip.2 - b.2) * (a.1 - b.1) - (ip.1 - b.1) * (a.2 - b.2)) := by ring
      rw [hneg, if_neg (by omega : ¬ -((ip.2 - b.2) * (a.1 - b.1) -
        (ip.1 - b.1) * (a.2 - b.2)) = 0), ppLoop_nil]
      refine Or.inr ⟨_, rfl, ?_⟩
      have hy : a.2 ≠ b.2 := by
        intro hy; exact hS (by omega)
      set D := (ip.2 - b.2) * (a.1 - b.1) - (ip.1 - b.1) * (a.2 - b.2) with hD
      rcases lt_or_gt_of_ne hy with hlt | hgt
      · rw [if_pos hlt, if_neg (by omega : ¬ b.2 < a.2)]
        split_ifs <;> omega
      · rw [if_neg (by omega : ¬ a.2 < b.2), if_pos (by omega : b.2 < a.2)]
        split_ifs <;> omega

theorem ppLoop_one_key (ip a : ℤ × ℤ) :
    ppLoop ip a [a] 0 = none ∨ ppLoop ip a [a] 0 = some 0 := by
  rw [ppLoop_cons]
  have hS : (a.2 ≤ ip.2 ∧ a.2 ≤ ip.2) ∨ (ip.2 < a.2 ∧ ip.2 < a.2) ∨
      (a.1 < ip.1 ∧ a.1 < ip.1) := by omega
  rw [if_pos hS]
  by_cases hE : ip.2 = a.2 ∧ (ip.1 = a.1 ∨ (ip.2 = a.2 ∧
      ((a.1 ≤ ip.1 ∧ ip.1 ≤ a.1) ∨ (a.1 ≤ ip.1 ∧ ip.1 ≤ a.1))))
  · rw [if_pos hE]; exact Or.inl rfl
  · rw [if_neg hE, ppLoop_nil]; exact Or.inr rfl

theorem pointPolygonTest_degenerate (pts : List (ℤ × ℤ)) (ip : ℤ × ℤ)
    (h : pts.length ≤ 2) : pointPolygonTest pts ip ≠ 1 := by
  match pts with
  | [] => simp [pointPolygonTest]
  | [a] =>
    rcases ppLoop_one_key ip a with hk | hk <;>
      simp [pointPolygonTest, hk]
  | [a, b] =>
    rcases ppLoop_two_key ip a b with hk | ⟨c, hk, hc⟩
    · simp [pointPolygonTest, hk]
    · simp [pointPolygonTest, hk, hc]
  | a :: b :: c :: rest => simp at h

/-- Claim C4 (amended): an empty vertex list contains no point; the
square zone contains (5,5) and excludes (15,15); and a zone with 2 or
fewer vertices has no interior at all (`pointPolygonTest` never returns
+1), so it can contain a point only when the test reports the point on
the degenerate contour itself. -/
theorem contains_point_amended :
    (∀ (z : SecurityZone) (pt : ℤ × ℤ), z.points = [] →
        z.contains_point pt = false)
    ∧ (∀ (z : SecurityZone) (pt : ℤ × ℤ), z.points.length ≤ 2 →
        pointPolygonTest z.points pt ≠ 1)
    ∧ squareZone.contains_point (5, 5) = true
    ∧ squareZone.contains_point (15, 15) = false := by
  refine ⟨?_, ?_, by decide, by decide⟩
  · intro z pt h
    simp [SecurityZone.contains_point, h]
  · intro z pt h
    exact pointPolygonTest_degenerate z.points pt h

theorem segAngle_right (a b : ℤ × ℤ) (h1 : b.1 - a.1 = 10) (h2 : b.2 - a.2 = 0) :
    segAngle a b = 0 := by
  unfold segAngle
  rw [h1, h2]
  norm_num [atan2, Real.arctan_zero]

theorem segAngle_up (a b : ℤ × ℤ) (h1 : b.1 - a.1 = 0) (h2 : b.2 - a.2 = 10) :
    segAngle a b = Real.pi / 2 := by
  unfold segAngle
  rw [h1, h2]
  norm_num [atan2]

theorem angleDelta_not_turn (a b c : ℤ × ℤ) (h : segAngle b c = segAngle a b) :
    ¬ Real.pi / 4 < angleDelta a b c := by
  simp only [angleDelta, h, sub_self, abs_zero]
  rw [if_neg (not_lt.2 Real.pi_pos.le)]
  have := Real.pi_pos
  intro hc
  linarith

theorem angleDelta_turn (a b c : ℤ × ℤ)
    (h : |segAngle b c - segAngle a b| = Real.pi / 2) :
    Real.pi / 4 < angleDelta a b c := by
  have hp := Real.pi_pos
  simp only [angleDelta, h]
  rw [if_neg (by linarith : ¬ Real.pi < Real.pi / 2)]
  linarith


theorem sqrt_hundred : Real.sqrt 100 = 10 := by
  rw [show (100 : ℝ) = 10 ^ 2 by norm_num, Real.sqrt_sq (by norm_num : (0:ℝ) ≤ 10)]

theorem exC2_directionChanges : directionChanges exC2.positions = 3 := by
  have hR1 : segAngle ((0:ℤ), (0:ℤ)) (10, 0) = 0 := segAngle_right _ _ (by decide) (by decide)
  have hR2 : segAngle ((10:ℤ), (0:ℤ)) (20, 0) = 0 := segAngle_right _ _ (by decide) (by decide)
  have hU3 : segAngle ((20:ℤ), (0:ℤ)) (20, 10) = Real.pi / 2 := segAngle_up _ _ (by decide) (by decide)
  have hU4 : segAngle ((20:ℤ), (10:ℤ)) (20, 20) = Real.pi / 2 := segAngle_up _ _ (by decide) (by decide)
  have hR5 : segAngle ((20:ℤ), (20:ℤ)) (30, 20) = 0 := segAngle_right _ _ (by decide) (by decide)
  have hR6 : segAngle ((30:ℤ), (20:ℤ)) (40, 20) = 0 := segAngle_right _ _ (by decide) (by decide)
  have hU7 : segAngle ((40:ℤ), (20:ℤ)) (40, 30) = Real.pi / 2 := segAngle_up _ _ (by decide) (by decide)
  have hU8 : segAngle ((40:ℤ), (30:ℤ)) (40, 40) = Real.pi / 2 := segAngle_up _ _ (by decide) (by decide)
  have hU9 : segAngle ((40:ℤ), (40:ℤ)) (40, 50) = Real.pi / 2 := segAngle_up _ _ (by decide) (by decide)
  have hp := Real.pi_pos
  have habs : |Real.pi / 2 - 0| = Real.pi / 2 := by
    rw [sub_zero, abs_of_nonneg (by linarith)]
  have habs' : |(0:ℝ) - Real.pi / 2| = Real.pi / 2 := by
    rw [zero_sub, abs_neg, abs_of_nonneg (by linarith)]
  have t1 := angleDelta_not_turn ((0:ℤ),(0:ℤ)) (10,0) (20,0) (by rw [hR1, hR2])
  have t2 := angleDelta_turn ((10:ℤ),(0:ℤ)) (20,0) (20,10) (by rw [hR2, hU3, habs])
  have t3 := angleDelta_not_turn ((20:ℤ),(0:ℤ)) (20,10) (20,20) (by rw [hU3, hU4])
  have t4 := angleDelta_turn ((20:ℤ),(10:ℤ)) (20,20) (30,20) (by rw [hU4, hR5, habs'])
  have t5 := angleDelta_not_turn ((20:ℤ),(20:ℤ)) (30,20) (40,20) (by rw [hR5, hR6])
  have t6 := angleDelta_turn ((30:ℤ),(20:ℤ)) (40,20) (40,30) (by rw [hR6, hU7, habs])
  have t7 := angleDelta_not_turn ((40:ℤ),(20:ℤ)) (40,30) (40,40) (by rw [hU7, hU8])
  have t8 := angleDelta_not_turn ((40:ℤ),(30:ℤ)) (40,40) (40,50) (by rw [hU8, hU9])
  simp only [directionChanges, exC2, List.tail_cons, List.zip_cons_cons,
    List.zip_nil_right, List.zip_nil_left, List.countP_cons, List.countP_nil]
  rw [decide_eq_false t1, decide_eq_true t2, decide_eq_false t3,
    decide_eq_true t4, decide_eq_false t5, decide_eq_true t6,
    decide_eq_false t7, decide_eq_false t8]
  rfl


theorem exC2_speed : exC2.get_speed = 10 := by
  simp only [PersonTracker.get_speed, exC2, List.zip_cons_cons,
    List.zip_nil_right, List.zip_nil_left, List.tail_cons, List.foldl_cons,
    List.foldl_nil, List.length_cons, List.length_nil]
  norm_num [sqrt_hundred]

theorem exC2_pattern : exC2.get_movement_pattern = "normal" := by
  have hlen : exC2.positions.length = 10 := by decide
  have hdc := exC2_directionChanges
  simp only [PersonTracker.get_movement_pattern, hlen, hdc, exC2_speed]
  norm_num

/-- Claim C2 counterexample: for this ten-sample track the speed is 10 px/s
(neither stationary nor running) and 3 of the 8 consecutive angle deltas
exceed `π/4`, so the claim's direction-change rate (the fraction of angle
deltas, `3/8`) is above `0.3` and the claim predicts `"erratic"`; the code
divides by the number of samples (`3/10`) and returns `"normal"`. -/
theorem movement_pattern_counterexample :
    5 ≤ exC2.positions.length
    ∧ ¬ exC2.get_speed < 5 ∧ ¬ 50 < exC2.get_speed
    ∧ (0.3 : ℝ) < (directionChanges exC2.positions : ℝ) /
        ((exC2.positions.length : ℝ) - 2)
    ∧ exC2.get_movement_pattern = "normal" := by
  have hlen : exC2.positions.length = 10 := by decide
  refine ⟨by omega, ?_, ?_, ?_, exC2_pattern⟩
  · rw [exC2_speed]; norm_num
  · rw [exC2_speed]; norm_num
  · rw [exC2_directionChanges, hlen]; norm_num



theorem base_risk_scores_nonneg (s : String) : 0 ≤ base_risk_scores s := by
  unfold base_risk_scores
  split <;> norm_num

theorem confidence_weights_nonneg (s : String) : 0 ≤ confidence_weights s := by
  unfold confidence_weights
  split <;> norm_num

theorem calculate_time_factor_pos (et ct : ℝ) : 0 < calculate_time_factor et ct := by
  simp only [calculate_time_factor]
  split_ifs <;> try norm_num

theorem eventScore_nonneg (e : RiskEvent) (ct : ℝ) : 0 ≤ eventScore e ct := by
  simp only [eventScore]
  have hb := base_risk_scores_nonneg e.event_type
  have hc := confidence_weights_nonneg (get_confidence_level e.confidence)
  have ht := (calculate_time_factor_pos e.timestamp ct).le
  split_ifs with hd
  · have hmin : 0 ≤ min (e.duration / 60) 2 := le_min (by linarith) (by norm_num)
    have : (0:ℝ) ≤ 1 + min (e.duration / 60) 2 * (0.3 : ℝ) := by nlinarith
    positivity
  · positivity

theorem riskFold_fst (ct : ℝ) (l : List RiskEvent) (acc : ℝ × ℝ × String) :
    (l.foldl (riskFold ct) acc).1
      = acc.1 + (l.map (fun e => eventScore e ct)).sum := by
  induction l generalizing acc with
  | nil => simp
  | cons e rest ih =>
    simp only [List.foldl_cons, List.map_cons, List.sum_cons, ih]
    simp only [riskFold]
    ring

theorem risk_total_nonneg (p : PersonTracker) (ct : ℝ) :
    0 ≤ (p.risk_events.foldl (riskFold ct) (0, 0, "normal")).1 := by
  rw [riskFold_fst]
  simp only [zero_add]
  apply List.sum_nonneg
  intro x hx
  obtain ⟨e, _, rfl⟩ := List.mem_map.1 hx
  exact eventScore_nonneg e ct

theorem risk_score_in_unit_range (p : PersonTracker) (ct : ℝ) :
    0 ≤ (calculate_risk_score p ct).1 ∧ (calculate_risk_score p ct).1 ≤ 100 := by
  have htot := risk_total_nonneg p ct
  simp only [calculate_risk_score]
  constructor
  · apply le_min _ (by norm_num)
    split_ifs <;> nlinarith [htot]
  · exact min_le_right _ _

theorem get_movement_pattern_congr (p q : PersonTracker)
    (h1 : q.positions = p.positions) (h2 : q.timestamps = p.timestamps) :
    q.get_movement_pattern = p.get_movement_pattern := by
  simp only [PersonTracker.get_movement_pattern, PersonTracker.get_speed, h1, h2]

theorem confidence_weight_mono (c c' : ℝ) (h : c ≤ c') :
    confidence_weights (get_confidence_level c)
      ≤ confidence_weights (get_confidence_level c') := by
  simp only [get_confidence_level]
  split_ifs with h1 h2 h3 h4 h5 <;>
    simp only [confidence_weights] <;> norm_num <;> linarith

theorem eventScore_mono_conf (e : RiskEvent) (ct c' : ℝ)
    (h : e.confidence ≤ c') :
    eventScore e ct ≤ eventScore { e with confidence := c' } ct := by
  simp only [eventScore]
  have hcw := confidence_weight_mono e.confidence c' h
  have hb := base_risk_scores_nonneg e.event_type
  have htp := calculate_time_factor_pos e.timestamp ct
  have hcore : base_risk_scores e.event_type
        * confidence_weights (get_confidence_level e.confidence)
        * calculate_time_factor e.timestamp ct * 1
      ≤ base_risk_scores e.event_type
        * confidence_weights (get_confidence_level c')
        * calculate_time_factor e.timestamp ct * 1 := by
    have h2 := mul_le_mul_of_nonneg_left hcw hb
    nlinarith [h2, htp]
  split_ifs with hd
  · have hmin : (0:ℝ) ≤ 1 + min (e.duration / 60) 2 * (0.3 : ℝ) := by
      have h3 : (0:ℝ) ≤ min (e.duration / 60) 2 := le_min (by linarith) (by norm_num)
      nlinarith
    exact mul_le_mul_of_nonneg_right hcore hmin
  · exact hcore

theorem risk_score_monotone_in_confidence (p : PersonTracker) (ct c' : ℝ)
    (l1 l2 : List RiskEvent) (e : RiskEvent)
    (hsplit : p.risk_events = l1 ++ e :: l2)
    (h0 : 0 ≤ e.confidence) (hle : e.confidence ≤ c') (h1 : c' ≤ 1) :
    (calculate_risk_score p ct).1 ≤
      (calculate_risk_score
        { p with risk_events := l1 ++ { e with confidence := c' } :: l2 } ct).1 := by
  have hmp : ({ p with risk_events := l1 ++ { e with confidence := c' } :: l2 }
      : PersonTracker).get_movement_pattern = p.get_movement_pattern :=
    get_movement_pattern_congr p _ rfl rfl
  have hlen : (l1 ++ ({ e with confidence := c' } : RiskEvent) :: l2).length
      = p.risk_events.length := by
    simp [hsplit]
  have hfilter : ((l1 ++ ({ e with confidence := c' } : RiskEvent) :: l2).filter
        (fun x => decide (ct - x.timestamp < 60))).length
      = (p.risk_events.filter (fun x => decide (ct - x.timestamp < 60))).length := by
    rw [hsplit]
    simp only [List.filter_append, List.filter_cons]
    by_cases hx : ct - e.timestamp < 60 <;> simp [hx]
  have htot : (p.risk_events.foldl (riskFold ct) (0, 0, "normal")).1
      ≤ ((l1 ++ ({ e with confidence := c' } : RiskEvent) :: l2).foldl
          (riskFold ct) (0, 0, "normal")).1 := by
    rw [riskFold_fst, riskFold_fst, hsplit]
    simp only [List.map_append, List.map_cons, List.sum_append, List.sum_cons]
    have := eventScore_mono_conf e ct c' hle
    linarith
  simp only [calculate_risk_score, hmp, hlen, hfilter, hsplit]
  rw [← hsplit]
  split_ifs <;>
    refine min_le_min ?_ le_rfl <;> nlinarith [htot]

theorem eraseRiskScore_fields (a b : RiskEvent)
    (h : eraseRiskScore a = eraseRiskScore b) :
    a.event_type = b.event_type ∧ a.confidence = b.confidence
      ∧ a.timestamp = b.timestamp ∧ a.duration = b.duration := by
  cases a
  cases b
  simp only [eraseRiskScore, RiskEvent.mk.injEq] at h
  simp_all

theorem foldl_erase_congr (ct : ℝ) :
    ∀ (l l' : List RiskEvent),
      l.map eraseRiskScore = l'.map eraseRiskScore →
      ∀ acc : ℝ × ℝ × String,
        l.foldl (riskFold ct) acc = l'.foldl (riskFold ct) acc := by
  intro l
  induction l with
  | nil =>
    intro l' h acc
    cases l' with
    | nil => rfl
    | cons b rest' => simp at h
  | cons a rest ih =>
    intro l' h acc
    cases l' with
    | nil => simp at h
    | cons b rest' =>
      simp only [List.map_cons, List.cons.injEq] at h
      obtain ⟨hab, hrest⟩ := h
      obtain ⟨h1, h2, h3, h4⟩ := eraseRiskScore_fields a b hab
      have hscore : eventScore a ct = eventScore b ct := by
        simp only [eventScore, h1, h2, h3, h4]
      simp only [List.foldl_cons]
      rw [show riskFold ct acc a = riskFold ct acc b by
        simp only [riskFold, hscore, h1]]
      exact ih rest' hrest _

theorem filter_recent_erase_congr (ct : ℝ) :
    ∀ (l l' : List RiskEvent),
      l.map eraseRiskScore = l'.map eraseRiskScore →
      (l.filter (fun x => decide (ct - x.timestamp < 60))).length
        = (l'.filter (fun x => decide (ct - x.timestamp < 60))).length := by
  intro l
  induction l with
  | nil =>
    intro l' h
    cases l' with
    | nil => rfl
    | cons b rest' => simp at h
  | cons a rest ih =>
    intro l' h
    cases l' with
    | nil => simp at h
    | cons b rest' =>
      simp only [List.map_cons, List.cons.injEq] at h
      obtain ⟨hab, hrest⟩ := h
      obtain ⟨-, -, h3, -⟩ := eraseRiskScore_fields a b hab
      simp only [List.filter_cons, h3]
      by_cases hx : ct - b.timestamp < 60 <;> simp [hx, ih rest' hrest]

theorem risk_score_ignores_stored_seed (p q : PersonTracker) (ct : ℝ)
    (hev : p.risk_events.map eraseRiskScore = q.risk_events.map eraseRiskScore)
    (hrest : q = { p with risk_events := q.risk_events }) :
    calculate_risk_score p ct = calculate_risk_score q ct := by
  have hmp : q.get_movement_pattern = p.get_movement_pattern := by
    refine get_movement_pattern_congr p q ?_ ?_ <;> rw [hrest]
  have hfold := foldl_erase_congr ct p.risk_events q.risk_events hev
    ((0 : ℝ), (0 : ℝ), "normal")
  have hlen : p.risk_events.length = q.risk_events.length := by
    have hc := congrArg List.length hev
    simpa using hc
  have hfl := filter_recent_erase_congr ct p.risk_events q.risk_events hev
  simp only [calculate_risk_score, hfold, hmp, hlen, hfl]

theorem risk_score_monotone_in_confidence_witness :
    (0 : ℝ) ≤ exC8e.confidence ∧ exC8e.confidence ≤ (0.9 : ℝ)
      ∧ (0.9 : ℝ) ≤ 1
      ∧ (calculate_risk_score exC8 7).1 ≤
          (calculate_risk_score
            { exC8 with
              risk_events := [] ++ { exC8e with confidence := (0.9 : ℝ) } :: [] }
            7).1 := by
  have ha : (0 : ℝ) ≤ exC8e.confidence := by norm_num [exC8e]
  have hb : exC8e.confidence ≤ (0.9 : ℝ) := by norm_num [exC8e]
  exact ⟨ha, hb, by norm_num,
    risk_score_monotone_in_confidence exC8 7 (0.9 : ℝ) [] [] exC8e rfl ha hb
      (by norm_num)⟩

theorem risk_score_ignores_stored_seed_witness :
    exC9p.risk_events.map eraseRiskScore = exC9q.risk_events.map eraseRiskScore
      ∧ calculate_risk_score exC9p 7 = calculate_risk_score exC9q 7 := by
  have hev : exC9p.risk_events.map eraseRiskScore
      = exC9q.risk_events.map eraseRiskScore := rfl
  exact ⟨hev, risk_score_ignores_stored_seed exC9p exC9q 7 hev rfl⟩


theorem movement_pattern_amended (p : PersonTracker) :
    (p.positions.length < 5 → p.get_movement_pattern = "insufficient_data")
    ∧ (¬ p.positions.length < 5 →
        (p.get_speed < 5 → p.get_movement_pattern = "stationary")
        ∧ (¬ p.get_speed < 5 → 50 < p.get_speed →
            p.get_movement_pattern = "running")
        ∧ (¬ p.get_speed < 5 → ¬ 50 < p.get_speed →
            ((0.3 : ℝ) < (directionChanges p.positions : ℝ) /
                (p.positions.length : ℝ) →
              p.get_movement_pattern = "erratic")
            ∧ (¬ (0.3 : ℝ) < (directionChanges p.positions : ℝ) /
                  (p.positions.length : ℝ) →
                (directionChanges p.positions : ℝ) /
                  (p.positions.length : ℝ) < (0.1 : ℝ) →
                p.get_movement_pattern = "linear")
            ∧ (¬ (0.3 : ℝ) < (directionChanges p.positions : ℝ) /
                  (p.positions.length : ℝ) →
                ¬ (directionChanges p.positions : ℝ) /
                  (p.positions.length : ℝ) < (0.1 : ℝ) →
                p.get_movement_pattern = "normal"))) := by
  simp only [PersonTracker.get_movement_pattern]
  constructor
  · intro h
    rw [if_pos h]
  · intro h5
    rw [if_neg h5]
    refine ⟨?_, ?_, ?_⟩
    · intro hs
      rw [if_pos hs]
    · intro hs hr
      rw [if_neg hs, if_pos hr]
    · intro hs hr
      rw [if_neg hs, if_neg hr]
      refine ⟨?_, ?_, ?_⟩
      · intro he
        rw [if_pos he]
      · intro he hl
        rw [if_neg he, if_pos hl]
      · intro he hl
        rw [if_neg he, if_neg hl]

theorem movement_pattern_amended_witness :
    ¬ exStationary.positions.length < 5 ∧ exStationary.get_speed < 5
      ∧ exStationary.get_movement_pattern = "stationary" := by
  have hs : exStationary.get_speed = 0 := by
    simp only [PersonTracker.get_speed, exStationary, List.zip_cons_cons,
      List.zip_nil_right, List.zip_nil_left, List.tail_cons, List.foldl_cons,
      List.foldl_nil, List.length_cons, List.length_nil]
    norm_num
  have h5 : ¬ exStationary.positions.length < 5 := by decide
  have hlt : exStationary.get_speed < 5 := by rw [hs]; norm_num
  exact ⟨h5, hlt, ((movement_pattern_amended exStationary).2 h5).1 hlt⟩


theorem exC3_avg : recentMovementAvg exC3 = 0 := by
  simp only [recentMovementAvg, recentMovementTotal, exC3, List.length_cons,
    List.length_nil]
  norm_num [List.zip_cons_cons, List.tail_cons, List.zip_nil_right,
    List.zip_nil_left]

theorem check_loitering_exact_threshold_counterexample :
    ¬ exC3.positions.length < 10
      ∧ recentMovementAvg exC3 < 10
      ∧ exC3.stationary_start = some 0
      ∧ (10 : ℝ) - 0 = defaultConfig.loitering_threshold
      ∧ (check_loitering defaultConfig exC3 10).1 = none := by
  refine ⟨by decide, by rw [exC3_avg]; norm_num, rfl, by norm_num [defaultConfig], ?_⟩
  have hss : exC3.stationary_start = some 0 := rfl
  simp only [check_loitering, hss, exC3_avg]
  rw [if_neg (by decide : ¬ exC3.positions.length < 10),
    if_pos (by norm_num : (0 : ℝ) < 10)]
  rw [if_neg (by norm_num [defaultConfig] :
    ¬ defaultConfig.loitering_threshold < (10 : ℝ) - 0)]

theorem check_loitering_amended (cfg : AlertConfig) (p : PersonTracker)
    (ct s : ℝ) :
    (¬ p.positions.length < 10 → recentMovementAvg p < 10 →
      p.stationary_start = some s → cfg.loitering_threshold < ct - s →
      (p.risk_events.filter (fun e =>
          e.event_type == "suspicious_loitering"
            && decide (ct - e.timestamp < 60))).isEmpty = true →
      (check_loitering cfg p ct).1 = some
        { event_type := "suspicious_loitering", risk_score := 8,
          confidence := (0.8 : ℝ), timestamp := ct, duration := ct - s,
          location := p.positions.getLast?.getD (0, 0) })
    ∧ (∀ e ∈ p.risk_events, e.event_type = "suspicious_loitering" →
        ct - e.timestamp < 60 → (check_loitering cfg p ct).1 = none) := by
  constructor
  · intro hlen havg hss hthr hfree
    simp only [check_loitering, hss]
    rw [if_neg hlen, if_pos havg, if_pos hthr, if_pos hfree]
  · intro e he het hrec
    by_cases hlen : p.positions.length < 10
    · simp only [check_loitering]
      rw [if_pos hlen]
    · by_cases havg : recentMovementAvg p < 10
      · cases hss : p.stationary_start with
        | none =>
          simp only [check_loitering, hss]
          rw [if_neg hlen, if_pos havg]
        | some s' =>
          by_cases hthr : cfg.loitering_threshold < ct - s'
          · have hne : (p.risk_events.filter (fun x =>
                x.event_type == "suspicious_loitering"
                  && decide (ct - x.timestamp < 60))).isEmpty = false := by
              have hmem : e ∈ p.risk_events.filter (fun x =>
                  x.event_type == "suspicious_loitering"
                    && decide (ct - x.timestamp < 60)) := by
                rw [List.mem_filter]
                refine ⟨he, ?_⟩
                rw [Bool.and_eq_true, beq_iff_eq, decide_eq_true_eq]
                exact ⟨het, hrec⟩
              rcases hfe : p.risk_events.filter (fun x =>
                  x.event_type == "suspicious_loitering"
                    && decide (ct - x.timestamp < 60)) with _ | ⟨y, ys⟩
              · rw [hfe] at hmem; simp at hmem
              · rw [hfe]; rfl
            simp only [check_loitering, hss]
            rw [if_neg hlen, if_pos havg, if_pos hthr, hne]
            simp
          · simp only [check_loitering, hss]
            rw [if_neg hlen, if_pos havg, if_neg hthr]
      · simp only [check_loitering]
        rw [if_neg hlen, if_neg havg]

theorem check_loitering_amended_witness :
    defaultConfig.loitering_threshold < (11 : ℝ) - 0
      ∧ (check_loitering defaultConfig exC3 11).1 = some
          { event_type := "suspicious_loitering", risk_score := 8,
            confidence := (0.8 : ℝ), timestamp := 11,
            duration := (11 : ℝ) - 0,
            location := exC3.positions.getLast?.getD (0, 0) }
      ∧ exLoiterEv ∈ exC3dup.risk_events
      ∧ (20 : ℝ) - exLoiterEv.timestamp < 60
      ∧ (check_loitering defaultConfig exC3dup 20).1 = none := by
  have hthr : defaultConfig.loitering_threshold < (11 : ℝ) - 0 := by
    norm_num [defaultConfig]
  have hmem : exLoiterEv ∈ exC3dup.risk_events := by
    simp [exC3dup]
  have hrec : (20 : ℝ) - exLoiterEv.timestamp < 60 := by
    norm_num [exLoiterEv]
  refine ⟨hthr, ?_, hmem, hrec, ?_⟩
  · exact (check_loitering_amended defaultConfig exC3 11 0).1
      (by decide) (by rw [exC3_avg]; norm_num) rfl hthr rfl
  · exact (check_loitering_amended defaultConfig exC3dup 20 0).2
      exLoiterEv hmem rfl hrec


theorem processPerson_skip (cfg : AlertConfig) (ct : ℝ) (p : PersonTracker)
    (h : 5 < ct - p.last_seen) : processPerson cfg ct p = ([], [], p) := by
  simp only [processPerson]
  rw [if_pos h]

theorem processPerson_alerting (cfg : AlertConfig) (ct : ℝ)
    (p : PersonTracker) (σ : ℝ) (τ : String)
    (hact : ¬ 5 < ct - p.last_seen)
    (hrs : calculate_risk_score p ct = (σ, τ))
    (hsig : cfg.risk_alert_threshold ≤ σ)
    (hdiff : τ ≠ p.last_notified_threat) :
    processPerson cfg ct p =
      ([{ timestamp := ct, track_id := p.track_id, risk_score := σ,
          primary_threat := τ, location := p.positions.getLast?,
          details := p.risk_events.map (fun e => e.event_type),
          path := p.positions }],
        [{ level := if cfg.critical_alert_threshold ≤ σ then "CRITICAL"
              else "HIGH",
           track_id := p.track_id, risk_score := σ, threat_type := τ,
           location := p.positions.getLast?.getD (0, 0), timestamp := ct }],
        { p with status := τ, last_notified_threat := τ }) := by
  simp only [processPerson, hrs]
  rw [if_neg hact, if_pos hsig, if_pos hdiff]

theorem processPerson_suppressed (cfg : AlertConfig) (ct : ℝ)
    (p : PersonTracker) (σ : ℝ) (τ : String)
    (hact : ¬ 5 < ct - p.last_seen)
    (hrs : calculate_risk_score p ct = (σ, τ))
    (hsig : cfg.risk_alert_threshold ≤ σ)
    (hsame : τ = p.last_notified_threat) :
    processPerson cfg ct p =
      ([{ timestamp := ct, track_id := p.track_id, risk_score := σ,
          primary_threat := τ, location := p.positions.getLast?,
          details := p.risk_events.map (fun e => e.event_type),
          path := p.positions }],
        [], { p with status := τ }) := by
  simp only [processPerson, hrs]
  rw [if_neg hact, if_pos hsig, if_neg (by simp [hsame])]

theorem calculate_risk_score_single (p : PersonTracker) (e : RiskEvent)
    (ct : ℝ)
    (hev : p.risk_events = [e])
    (hlen : p.positions.length < 5)
    (himm : ct - e.timestamp < 10)
    (hconf : (0.8 : ℝ) ≤ e.confidence)
    (hdur : ¬ (30 : ℝ) < e.duration)
    (hrec : ct - e.timestamp < 60)
    (hbase : 0 < base_risk_scores e.event_type) :
    calculate_risk_score p ct
      = (min (base_risk_scores e.event_type * (1.5 : ℝ)) 100, e.event_type) := by
  have hmp : p.get_movement_pattern = "insufficient_data" := by
    simp only [PersonTracker.get_movement_pattern]
    rw [if_pos hlen]
  have hcl : get_confidence_level e.confidence = "high" := by
    simp only [get_confidence_level]
    rw [if_pos hconf]
  have htf : calculate_time_factor e.timestamp ct = (1.5 : ℝ) := by
    simp only [calculate_time_factor]
    rw [if_pos himm]
  have hes : eventScore e ct = base_risk_scores e.event_type * (1.5 : ℝ) := by
    simp only [eventScore, hcl, htf, confidence_weights]
    rw [if_neg hdur]
    ring
  have hpos : (0 : ℝ) < eventScore e ct := by
    rw [hes]
    positivity
  simp only [calculate_risk_score, hev, List.foldl_cons, List.foldl_nil,
    riskFold, hmp, List.filter_cons, List.filter_nil,
    decide_eq_true hrec]
  rw [if_pos hpos]
  rw [if_neg (by decide : ¬ ("insufficient_data" : String) = "erratic"),
    if_neg (by decide : ¬ ("insufficient_data" : String) = "running")]
  simp only [if_true, List.length_cons, List.length_nil]
  rw [if_neg (by simp : ¬ (("insufficient_data" : String) = "stationary"
      ∧ 0 < 0 + 1)),
    if_neg (by norm_num : ¬ (2 : ℕ) < 0 + 1)]
  norm_num [hes]

theorem active_track_criterion_amended (cfg : AlertConfig) (ct : ℝ)
    (p : PersonTracker) (trackers : List PersonTracker) :
    (5 < ct - p.last_seen → processPerson cfg ct p = ([], [], p))
    ∧ (ct - p.last_seen ≤ 5 →
        ((processPerson cfg ct p).1 ≠ [] ↔
          cfg.risk_alert_threshold ≤ (calculate_risk_score p ct).1)
        ∧ (processPerson cfg ct p).2.2.status = (calculate_risk_score p ct).2)
    ∧ (get_system_statistics trackers ct).active_trackers
        = trackers.countP (fun q => decide (ct - q.last_seen < 5)) := by
  refine ⟨processPerson_skip cfg ct p, ?_, ?_⟩
  · intro hle
    have hact : ¬ 5 < ct - p.last_seen := not_lt.2 hle
    rcases hr : calculate_risk_score p ct with ⟨σ, τ⟩
    simp only [processPerson, hr]
    rw [if_neg hact]
    by_cases hsig : cfg.risk_alert_threshold ≤ σ
    · rw [if_pos hsig]
      by_cases hdiff : τ ≠ p.last_notified_threat
      · rw [if_pos hdiff]
        exact ⟨iff_of_true (by simp) hsig, rfl⟩
      · rw [if_neg hdiff]
        exact ⟨iff_of_true (by simp) hsig, rfl⟩
    · rw [if_neg hsig]
      by_cases hn : p.last_notified_threat ≠ "normal"
      · rw [if_pos hn]
        exact ⟨iff_of_false (by simp) hsig, rfl⟩
      · rw [if_neg hn]
        exact ⟨iff_of_false (by simp) hsig, rfl⟩
  · simp only [get_system_statistics]
    rw [List.countP_eq_length_filter]

theorem active_track_boundary_counterexample :
    (5 : ℝ) - exC5.last_seen ≥ 5
      ∧ (process_alerts defaultConfig 5 [exC5]).1 ≠ []
      ∧ (get_system_statistics [exC5] 5).active_trackers = 0 := by
  have hage : (5 : ℝ) - exC5.last_seen = 5 := by norm_num [exC5]
  have hr : calculate_risk_score exC5 5 = ((22.5 : ℝ), "intrusion") := by
    rw [calculate_risk_score_single exC5 exC5e 5 rfl (by decide)
      (by norm_num [exC5e]) (by norm_num [exC5e]) (by norm_num [exC5e])
      (by norm_num [exC5e]) (by norm_num [exC5e, base_risk_scores])]
    rw [show base_risk_scores exC5e.event_type = 15 from rfl]
    rw [min_eq_left (by norm_num)]
    simp only [Prod.mk.injEq]
    exact ⟨by norm_num, rfl⟩
  have e1 := processPerson_alerting defaultConfig 5 exC5 (22.5 : ℝ)
    "intrusion" (by rw [hage]; norm_num) hr (by norm_num [defaultConfig])
    (by decide)
  refine ⟨by rw [hage], ?_, ?_⟩
  · simp only [process_alerts, List.foldr_cons, List.foldr_nil, e1]
    simp
  · have hf : (decide ((5 : ℝ) - exC5.last_seen < 5)) = false :=
      decide_eq_false (by rw [hage]; norm_num)
    simp only [get_system_statistics, List.filter_cons, hf,
      List.filter_nil, Bool.false_eq_true, if_neg]
    simp

theorem active_track_criterion_amended_witness :
    (5 : ℝ) < (6 : ℝ) - (mkTracker 6).last_seen
      ∧ processPerson defaultConfig 6 (mkTracker 6) = ([], [], mkTracker 6)
      ∧ (5 : ℝ) - exC5.last_seen ≤ 5
      ∧ ((processPerson defaultConfig 5 exC5).1 ≠ [] ↔
          defaultConfig.risk_alert_threshold ≤ (calculate_risk_score exC5 5).1)
      ∧ (get_system_statistics [exC5] 5).active_trackers
          = [exC5].countP (fun q => decide ((5 : ℝ) - q.last_seen < 5)) := by
  have h6 : (5 : ℝ) < (6 : ℝ) - (mkTracker 6).last_seen := by
    norm_num [mkTracker]
  have h5 : (5 : ℝ) - exC5.last_seen ≤ 5 := by norm_num [exC5]
  exact ⟨h6,
    (active_track_criterion_amended defaultConfig 6 (mkTracker 6) []).1 h6,
    h5,
    ((active_track_criterion_amended defaultConfig 5 exC5 []).2.1 h5).1,
    (active_track_criterion_amended defaultConfig 5 exC5 [exC5]).2.2⟩

theorem alert_dedup_state_machine (cfg : AlertConfig)
    (p1 p2 p3 p4 p5 p6 : PersonTracker)
    (t1 t2 t3 t4 t5 t6 σ1 σ2 σ3 σ4 σ5 σ6 : ℝ)
    (ha1 : ¬ 5 < t1 - p1.last_seen) (ha2 : ¬ 5 < t2 - p2.last_seen)
    (ha3 : ¬ 5 < t3 - p3.last_seen) (ha4 : ¬ 5 < t4 - p4.last_seen)
    (ha5 : ¬ 5 < t5 - p5.last_seen) (ha6 : ¬ 5 < t6 - p6.last_seen)
    (hr1 : calculate_risk_score p1 t1 = (σ1, "intrusion"))
    (hr2 : calculate_risk_score p2 t2 = (σ2, "intrusion"))
    (hr3 : calculate_risk_score p3 t3 = (σ3, "intrusion"))
    (hr4 : calculate_risk_score p4 t4 = (σ4, "intrusion"))
    (hr5 : calculate_risk_score p5 t5 = (σ5, "intrusion"))
    (hr6 : calculate_risk_score p6 t6 = (σ6, "armed_person"))
    (hs1 : cfg.risk_alert_threshold ≤ σ1)
    (hs2 : cfg.risk_alert_threshold ≤ σ2)
    (hs3 : cfg.risk_alert_threshold ≤ σ3)
    (hs4 : cfg.risk_alert_threshold ≤ σ4)
    (hs5 : cfg.risk_alert_threshold ≤ σ5)
    (hs6 : cfg.risk_alert_threshold ≤ σ6)
    (hn1 : p1.last_notified_threat = "normal")
    (hn2 : p2.last_notified_threat
      = (processPerson cfg t1 p1).2.2.last_notified_threat)
    (hn3 : p3.last_notified_threat
      = (processPerson cfg t2 p2).2.2.last_notified_threat)
    (hn4 : p4.last_notified_threat
      = (processPerson cfg t3 p3).2.2.last_notified_threat)
    (hn5 : p5.last_notified_threat
      = (processPerson cfg t4 p4).2.2.last_notified_threat)
    (hn6 : p6.last_notified_threat
      = (processPerson cfg t5 p5).2.2.last_notified_threat) :
    (processPerson cfg t1 p1).1.length = 1
    ∧ (processPerson cfg t2 p2).1.length = 1
    ∧ (processPerson cfg t3 p3).1.length = 1
    ∧ (processPerson cfg t4 p4).1.length = 1
    ∧ (processPerson cfg t5 p5).1.length = 1
    ∧ (processPerson cfg t1 p1).2.1.length = 1
    ∧ (processPerson cfg t2 p2).2.1 = []
    ∧ (processPerson cfg t3 p3).2.1 = []
    ∧ (processPerson cfg t4 p4).2.1 = []
    ∧ (processPerson cfg t5 p5).2.1 = []
    ∧ (processPerson cfg t6 p6).2.1 =
        [{ level := if cfg.critical_alert_threshold ≤ σ6 then "CRITICAL"
              else "HIGH",
           track_id := p6.track_id, risk_score := σ6,
           threat_type := "armed_person",
           location := p6.positions.getLast?.getD (0, 0), timestamp := t6 }]
    ∧ (processPerson cfg t6 p6).2.2.last_notified_threat = "armed_person" := by
  have e1 := processPerson_alerting cfg t1 p1 σ1 "intrusion" ha1 hr1 hs1
    (by rw [hn1]; decide)
  have ln2 : p2.last_notified_threat = "intrusion" := by rw [hn2, e1]
  have e2 := processPerson_suppressed cfg t2 p2 σ2 "intrusion" ha2 hr2 hs2
    (by rw [ln2])
  have ln3 : p3.last_notified_threat = "intrusion" := by rw [hn3, e2, ln2]
  have e3 := processPerson_suppressed cfg t3 p3 σ3 "intrusion" ha3 hr3 hs3
    (by rw [ln3])
  have ln4 : p4.last_notified_threat = "intrusion" := by rw [hn4, e3, ln3]
  have e4 := processPerson_suppressed cfg t4 p4 σ4 "intrusion" ha4 hr4 hs4
    (by rw [ln4])
  have ln5 : p5.last_notified_threat = "intrusion" := by rw [hn5, e4, ln4]
  have e5 := processPerson_suppressed cfg t5 p5 σ5 "intrusion" ha5 hr5 hs5
    (by rw [ln5])
  have ln6 : p6.last_notified_threat = "intrusion" := by rw [hn6, e5, ln5]
  have e6 := processPerson_alerting cfg t6 p6 σ6 "armed_person" ha6 hr6 hs6
    (by rw [ln6]; decide)
  refine ⟨by simp [e1], by simp [e2], by simp [e3], by simp [e4],
    by simp [e5], by simp [e1], by simp [e2], by simp [e3], by simp [e4],
    by simp [e5], by rw [e6], by rw [e6]⟩

theorem exC1intr_score (p : PersonTracker) (ts : ℝ)
    (hev : p.risk_events = [exC1intr ts]) (hlen : p.positions.length < 5) :
    calculate_risk_score p ts = ((22.5 : ℝ), "intrusion") := by
  rw [calculate_risk_score_single p (exC1intr ts) ts hev hlen
    (by norm_num [exC1intr]) (by norm_num [exC1intr]) (by norm_num [exC1intr])
    (by norm_num [exC1intr]) (by norm_num [exC1intr, base_risk_scores])]
  rw [show base_risk_scores (exC1intr ts).event_type = 15 from rfl]
  rw [min_eq_left (by norm_num)]
  simp only [Prod.mk.injEq]
  exact ⟨by norm_num, rfl⟩

theorem exC1arm_score :
    calculate_risk_score exC1p6 6 = ((30 : ℝ), "armed_person") := by
  rw [calculate_risk_score_single exC1p6 exC1arm 6 rfl (by decide)
    (by norm_num [exC1arm]) (by norm_num [exC1arm]) (by norm_num [exC1arm])
    (by norm_num [exC1arm]) (by norm_num [exC1arm, base_risk_scores])]
  rw [show base_risk_scores exC1arm.event_type = 20 from rfl]
  rw [min_eq_left (by norm_num)]
  simp only [Prod.mk.injEq]
  exact ⟨by norm_num, rfl⟩

theorem alert_dedup_state_machine_witness :
    calculate_risk_score exC1p1 1 = ((22.5 : ℝ), "intrusion")
      ∧ calculate_risk_score exC1p6 6 = ((30 : ℝ), "armed_person")
      ∧ exC1p1.last_notified_threat = "normal"
      ∧ (processPerson defaultConfig 1 exC1p1).1.length = 1
      ∧ (processPerson defaultConfig 2 exC1p2).1.length = 1
      ∧ (processPerson defaultConfig 3 exC1p3).1.length = 1
      ∧ (processPerson defaultConfig 4 exC1p4).1.length = 1
      ∧ (processPerson defaultConfig 5 exC1p5).1.length = 1
      ∧ (processPerson defaultConfig 1 exC1p1).2.1.length = 1
      ∧ (processPerson defaultConfig 2 exC1p2).2.1 = []
      ∧ (processPerson defaultConfig 3 exC1p3).2.1 = []
      ∧ (processPerson defaultConfig 4 exC1p4).2.1 = []
      ∧ (processPerson defaultConfig 5 exC1p5).2.1 = []
      ∧ (processPerson defaultConfig 6 exC1p6).2.1 =
          [{ level := "HIGH", track_id := 7, risk_score := 30,
             threat_type := "armed_person", location := (3, 3),
             timestamp := 6 }]
      ∧ (processPerson defaultConfig 6 exC1p6).2.2.last_notified_threat
          = "armed_person" := by
  have hr1 : calculate_risk_score exC1p1 1 = ((22.5 : ℝ), "intrusion") :=
    exC1intr_score exC1p1 1 rfl (by decide)
  have hr2 : calculate_risk_score exC1p2 2 = ((22.5 : ℝ), "intrusion") :=
    exC1intr_score exC1p2 2 rfl (by decide)
  have hr3 : calculate_risk_score exC1p3 3 = ((22.5 : ℝ), "intrusion") :=
    exC1intr_score exC1p3 3 rfl (by decide)
  have hr4 : calculate_risk_score exC1p4 4 = ((22.5 : ℝ), "intrusion") :=
    exC1intr_score exC1p4 4 rfl (by decide)
  have hr5 : calculate_risk_score exC1p5 5 = ((22.5 : ℝ), "intrusion") :=
    exC1intr_score exC1p5 5 rfl (by decide)
  have hr6 := exC1arm_score
  have hsig : defaultConfig.risk_alert_threshold ≤ (22.5 : ℝ) := by
    norm_num [defaultConfig]
  have hsig6 : defaultConfig.risk_alert_threshold ≤ (30 : ℝ) := by
    norm_num [defaultConfig]
  have hthread2 : exC1p2.last_notified_threat
      = (processPerson defaultConfig 1 exC1p1).2.2.last_notified_threat := by
    rw [processPerson_alerting defaultConfig 1 exC1p1 (22.5 : ℝ) "intrusion"
      (by norm_num [exC1p1]) hr1 hsig (by decide)]
    rfl
  have hthread3 : exC1p3.last_notified_threat
      = (processPerson defaultConfig 2 exC1p2).2.2.last_notified_threat := by
    rw [processPerson_suppressed defaultConfig 2 exC1p2 (22.5 : ℝ) "intrusion"
      (by norm_num [exC1p2]) hr2 hsig (by decide)]
    rfl
  have hthread4 : exC1p4.last_notified_threat
      = (processPerson defaultConfig 3 exC1p3).2.2.last_notified_threat := by
    rw [processPerson_suppressed defaultConfig 3 exC1p3 (22.5 : ℝ) "intrusion"
      (by norm_num [exC1p3]) hr3 hsig (by decide)]
    rfl
  have hthread5 : exC1p5.last_notified_threat
      = (processPerson defaultConfig 4 exC1p4).2.2.last_notified_threat := by
    rw [processPerson_suppressed defaultConfig 4 exC1p4 (22.5 : ℝ) "intrusion"
      (by norm_num [exC1p4]) hr4 hsig (by decide)]
    rfl
  have hthread6 : exC1p6.last_notified_threat
      = (processPerson defaultConfig 5 exC1p5).2.2.last_notified_threat := by
    rw [processPerson_suppressed defaultConfig 5 exC1p5 (22.5 : ℝ) "intrusion"
      (by norm_num [exC1p5]) hr5 hsig (by decide)]
    rfl
  have main := alert_dedup_state_machine defaultConfig
    exC1p1 exC1p2 exC1p3 exC1p4 exC1p5 exC1p6
    1 2 3 4 5 6 (22.5 : ℝ) (22.5 : ℝ) (22.5 : ℝ) (22.5 : ℝ) (22.5 : ℝ)
    (30 : ℝ)
    (by norm_num [exC1p1]) (by norm_num [exC1p2]) (by norm_num [exC1p3])
    (by norm_num [exC1p4]) (by norm_num [exC1p5]) (by norm_num [exC1p6])
    hr1 hr2 hr3 hr4 hr5 hr6
    hsig hsig hsig hsig hsig hsig6
    rfl hthread2 hthread3 hthread4 hthread5 hthread6
  obtain ⟨c1, c2, c3, c4, c5, c6, c7, c8, c9, c10, c11, c12⟩ := main
  rw [if_neg (by norm_num [defaultConfig] :
    ¬ defaultConfig.critical_alert_threshold ≤ (30 : ℝ))] at c11
  exact ⟨hr1, hr6, rfl, c1, c2, c3, c4, c5, c6, c7, c8, c9, c10, c11, c12⟩

/-- Claim C4 counterexample: the two-vertex zone `[(0, 0), (10, 0)]` has
2 or fewer vertices yet `contains_point (5, 0)` is true — the point lies
on the degenerate contour, where `cv2.pointPolygonTest` returns 0 and
`0 >= 0` holds — refuting "a zone with 2 or fewer points contains
nothing". -/
theorem contains_point_degenerate_counterexample :
    twoPointZone.points.length ≤ 2
      ∧ twoPointZone.contains_point (5, 0) = true := by
  decide

/-- Witness for claim C4 (amended): concrete instances of the three
quantified parts. -/
theorem contains_point_amended_witness :
    SecurityZone.contains_point ⟨"empty", "public", []⟩ (7, 7) = false
      ∧ twoPointZone.points.length ≤ 2
      ∧ pointPolygonTest twoPointZone.points (7, 7) ≠ 1 :=
  ⟨contains_point_amended.1 ⟨"empty", "public", []⟩ (7, 7) rfl,
   by decide,
   contains_point_amended.2.1 twoPointZone (7, 7) (by decide)⟩


theorem analysis_loop_not_isolated_counterexample :
    analyzeFailOnOne (mkTracker 1) = Except.error "boom"
      ∧ (0 : ℝ) - (mkTracker 2).last_seen < 5
      ∧ analyzeLoopWith analyzeFailOnOne 0 [mkTracker 1, mkTracker 2]
          = Except.error "boom" := by
  refine ⟨?_, by norm_num [mkTracker], ?_⟩
  · simp [analyzeFailOnOne, mkTracker]
  · simp only [analyzeLoopWith]
    rw [if_pos (by norm_num [mkTracker] :
      (0 : ℝ) - (mkTracker 1).last_seen < 5)]
    simp [analyzeFailOnOne, mkTracker]

theorem per_track_fault_isolation_amended
    (evalPerson : PersonTracker →
      Except String (List Incident × List Alert × PersonTracker))
    (analyze : PersonTracker → Except String PersonTracker)
    (ts1 ts2 rest : List PersonTracker) (bad : PersonTracker)
    (ct : ℝ) (msg : String) :
    (evalPerson bad = Except.error msg →
      processAlertsWith evalPerson (ts1 ++ bad :: ts2)
        = ((processAlertsWith evalPerson ts1).1
              ++ (processAlertsWith evalPerson ts2).1,
           (processAlertsWith evalPerson ts1).2.1
              ++ (processAlertsWith evalPerson ts2).2.1,
           (processAlertsWith evalPerson ts1).2.2
              ++ bad :: (processAlertsWith evalPerson ts2).2.2))
    ∧ (ct - bad.last_seen < 5 → analyze bad = Except.error msg →
        analyzeLoopWith analyze ct (bad :: rest) = Except.error msg) := by
  constructor
  · intro herr
    induction ts1 with
    | nil =>
      simp only [List.nil_append, processAlertsWith, List.foldr_cons,
        List.foldr_nil, herr]
    | cons a as ih =>
      simp only [List.cons_append, processAlertsWith, List.foldr_cons] at *
      rw [ih]
      cases evalPerson a <;> simp
  · intro hact herr
    simp only [analyzeLoopWith]
    rw [if_pos hact, herr]

theorem per_track_fault_isolation_amended_witness :
    failOnOne (mkTracker 1) = Except.error "boom"
      ∧ processAlertsWith failOnOne ([mkTracker 0] ++ mkTracker 1 :: [mkTracker 2])
          = ((processAlertsWith failOnOne [mkTracker 0]).1
                ++ (processAlertsWith failOnOne [mkTracker 2]).1,
             (processAlertsWith failOnOne [mkTracker 0]).2.1
                ++ (processAlertsWith failOnOne [mkTracker 2]).2.1,
             (processAlertsWith failOnOne [mkTracker 0]).2.2
                ++ mkTracker 1 :: (processAlertsWith failOnOne [mkTracker 2]).2.2)
      ∧ (0 : ℝ) - (mkTracker 1).last_seen < 5
      ∧ analyzeLoopWith analyzeFailOnOne 0 [mkTracker 1, mkTracker 2]
          = Except.error "boom" := by
  have herr : failOnOne (mkTracker 1) = Except.error "boom" := by
    simp [failOnOne, mkTracker]
  have herr2 : analyzeFailOnOne (mkTracker 1) = Except.error "boom" := by
    simp [analyzeFailOnOne, mkTracker]
  have hact : (0 : ℝ) - (mkTracker 1).last_seen < 5 := by
    norm_num [mkTracker]
  exact ⟨herr,
    (per_track_fault_isolation_amended failOnOne analyzeFailOnOne
      [mkTracker 0] [mkTracker 2] [mkTracker 2] (mkTracker 1) 0 "boom").1 herr,
    hact,
    (per_track_fault_isolation_amended failOnOne analyzeFailOnOne
      [mkTracker 0] [mkTracker 2] [mkTracker 2] (mkTracker 1) 0 "boom").2
      hact herr2⟩

end ThreatWatch
